import Mathlib

/-!
Shallow embedding of the epoll stressor (`src/stress-epoll.c`) of this
repository, together with theorems settling the behavioural claims about
its port allocation, domain registry, client connect/retry/send loop,
server event loop and accept-drain loop.

Conventions of the embedding:
* C `int`/`uint64_t` arithmetic on ports, counters and retry counts is
  represented on `Nat`/`Int`; no value in any claim approaches a machine
  width, so no wrap-around modelling is needed.
* errno values are the Linux constants, as `Nat`.
* System calls are modelled by environment records listing the outcome of
  each call (success, or the errno it fails with); the loops of the C code
  become structurally recursive functions consuming a list of such
  records.  An exhausted list means the loop was still running, encoded
  as `Option.none`.
-/

namespace StressEpoll

/-- Linux errno EINTR (interrupted system call). -/
def EINTR : Nat := 4

/-- Linux errno ENOENT (no such file or directory). -/
def ENOENT : Nat := 2

/-- Linux errno EAGAIN. -/
def EAGAIN : Nat := 11

/-- Linux errno EWOULDBLOCK (same value as EAGAIN on Linux). -/
def EWOULDBLOCK : Nat := 11

/-- Linux errno ENFILE (file table overflow). -/
def ENFILE : Nat := 23

/-- Linux errno EMFILE (too many open files). -/
def EMFILE : Nat := 24

/-- Linux errno ECONNREFUSED. -/
def ECONNREFUSED : Nat := 111

/-- Address family AF_UNIX (= 1 on Linux). -/
def AF_UNIX : Int := 1

/-- Address family AF_INET (= 2 on Linux). -/
def AF_INET : Int := 2

/-- Address family AF_INET6 (= 10 on Linux). -/
def AF_INET6 : Int := 10

/-- C `EXIT_SUCCESS`. -/
def EXIT_SUCCESS : Int := 0

/-- C `EXIT_FAILURE`. -/
def EXIT_FAILURE : Int := 1

/-!  ## Port allocation

`epoll_client` (line 315) computes
`port = opt_epoll_port + port_counter + (max_servers * instance)`, where
`port_counter` cycles round-robin over `0 .. max_servers-1` (line 318).
`epoll_server` (line 461) computes
`port = opt_epoll_port + child + (max_servers * instance)` where `child`
is the worker index passed at fork time. -/

/-- Port used by the client for a given round-robin counter value
(`stress-epoll.c` line 315). -/
def clientPort (opt_epoll_port max_servers inst port_counter : Nat) : Nat :=
  opt_epoll_port + port_counter + max_servers * inst

/-- Port a server worker binds to, from its child index
(`stress-epoll.c` line 461). -/
def serverPort (opt_epoll_port max_servers inst child : Nat) : Nat :=
  opt_epoll_port + child + max_servers * inst

/-!  ## Domain registry -/

/-- One row of the `domains[]` table (`stress-epoll.c` lines 74-78). -/
structure domain_t where
  name : String
  domain : Int
  max_servers : Nat
  deriving Repr, DecidableEq

/-- The `domains[]` table (`stress-epoll.c` lines 80-85); the NULL row that
terminates the C array iteration is represented by the end of the list. -/
def domains : List domain_t :=
  [⟨"ipv4", AF_INET, 4⟩, ⟨"ipv6", AF_INET6, 4⟩, ⟨"unix", AF_UNIX, 1⟩]

/-- The module-level configuration mutated by `stress_set_epoll_domain`:
`opt_epoll_domain` and `max_servers` (`stress-epoll.c` lines 61-63). -/
structure EpollConfig where
  opt_epoll_domain : Int
  max_servers : Nat
  deriving Repr, DecidableEq

/-- The scan loop of `stress_set_epoll_domain` (lines 106-112): first table
row whose name matches wins; the fallthrough returns -1 leaving the
configuration unchanged. -/
def setDomainScan : List domain_t → String → EpollConfig → Int × EpollConfig
  | [], _, cfg => (-1, cfg)
  | d :: rest, nm, cfg =>
      if nm = d.name then (0, ⟨d.domain, d.max_servers⟩)
      else setDomainScan rest nm cfg

/-- `stress_set_epoll_domain` (`stress-epoll.c` lines 102-118): resolve a
domain name against `domains[]`; on a match store the address family and
worker count and return 0, otherwise print the valid names and return -1. -/
def stress_set_epoll_domain (nm : String) (cfg : EpollConfig) : Int × EpollConfig :=
  setDomainScan domains nm cfg

/-!  ## Server event loop (`epoll_server`, lines 558-601)

Only the control flow of the outer `do { } while` around `epoll_wait`
matters for the claims: the body's event handling (closing fds on
EPOLLERR/EPOLLHUP, `epoll_notification`, `epoll_recv_data`) never changes
`rc` and never exits the outer loop (a failing `epoll_notification` only
breaks the inner `for`), so a successful wait is abstracted to the number
of events it reported.  `counter` is never written inside `epoll_server`,
so the `*counter < max_ops` test reads a constant. -/

/-- Outcome of one `epoll_wait` call: `events n` for a return of `n ≥ 0`,
`err e` for a -1 return with errno `e`. -/
inductive WaitResult where
  | events (n : Nat)
  | err (e : Nat)
  deriving Repr, DecidableEq

/-- The `do { } while (opt_do_run && (!max_ops || *counter < max_ops))`
loop of `epoll_server` (lines 558-601), consuming one `WaitResult` per
iteration and returning the exit status `rc` of the worker.  On a wait
error: errno ≠ EINTR sets `rc = EXIT_FAILURE` and jumps to cleanup
(lines 570-574); errno = EINTR hits the `break` on line 575, leaving
`rc = EXIT_SUCCESS`.  `none` means the trace ended with the loop still
running. -/
def epoll_server_loop (do_run : Bool) (max_ops counter : Nat) :
    List WaitResult → Option Int
  | [] => none
  | WaitResult.err e :: _ =>
      some (if e = EINTR then EXIT_SUCCESS else EXIT_FAILURE)
  | WaitResult.events _ :: rest =>
      if do_run ∧ (max_ops = 0 ∨ counter < max_ops) then
        epoll_server_loop do_run max_ops counter rest
      else
        some EXIT_SUCCESS

/-!  ## Accept-drain loop (`epoll_notification`, lines 237-274) -/

/-- Environment of one iteration of the accept loop: the errno `accept`
fails with (`none` = an fd was returned), and whether the follow-up
`epoll_set_fd_nonblock` and `epoll_ctl_add` calls succeed. -/
structure NotifStep where
  accept_errno : Option Nat
  nonblock_ok : Bool
  ctl_add_ok : Bool
  deriving Repr, DecidableEq

/-- `epoll_notification` (lines 237-274): accept in a loop; EAGAIN or
EWOULDBLOCK ends the pass returning 0; EMFILE or ENFILE ends the pass
returning 0 (the C code only carries a comment on that branch, no
logging call); any other accept errno logs "accept" and returns -1;
a failing non-block or registration step logs, closes the fd and
returns -1.  The second component collects the `pr_failed_err`
messages emitted.  `none` means the supplied trace ran out while the
loop was still accepting. -/
def epoll_notification : List NotifStep → Option (Int × List String)
  | [] => none
  | s :: rest =>
      match s.accept_errno with
      | some e =>
          if e = EAGAIN ∨ e = EWOULDBLOCK then some (0, [])
          else if e = EMFILE ∨ e = ENFILE then some (0, [])
          else some (-1, ["accept"])
      | none =>
          if s.nonblock_ok = false then
            some (-1, ["setting socket to non-blocking"])
          else if s.ctl_add_ok = false then
            some (-1, ["epoll ctl add"])
          else epoll_notification rest

/-!  ## Client engine (`epoll_client`, lines 281-445)

The client loop is embedded as a structurally recursive function over a
list of `AttemptEnv` records, one per pass through the `retry:` label
(lines 319-420).  Each record fixes the outcome of every system call of
that pass.  The `opt_do_run` read of the `while` condition (line 433) and
the `if (!opt_do_run) break` at the `retry:` label (line 320) are two
back-to-back reads of the same flag with identical observable effect
(leave the loop, unlink the unix path, return EXIT_SUCCESS), so the model
folds the former into the next record's `do_run` field.  Timer events and
payload sends are logged into an event trace, so the timer-discipline and
payload claims can be read off the result. -/

/-- Outcome of every system call of one pass through the `retry:` label of
`epoll_client`. -/
structure AttemptEnv where
  /-- value of `opt_do_run` at the `retry:` check (line 320) -/
  do_run : Bool
  /-- `socket()` succeeds (line 323) -/
  socket_ok : Bool
  /-- `timer_create` succeeds (line 331) -/
  timer_create_ok : Bool
  /-- `timer_settime` arming the 250 ms deadline succeeds (line 347) -/
  timer_settime_ok : Bool
  /-- `none`: `connect` returned 0; `some e`: it returned -1 with errno `e` -/
  connect_errno : Option Nat
  /-- `timer_delete` succeeds (line 389) -/
  timer_delete_ok : Bool
  /-- `send` of the 4096-byte buffer succeeds (line 423) -/
  send_ok : Bool
  deriving Repr, DecidableEq

/-- Observable events emitted by the client, in program order. -/
inductive ClientEvent where
  /-- successful `timer_create` (line 331) -/
  | timerCreate
  /-- successful `timer_settime` arming the connect deadline (line 347) -/
  | timerArm
  /-- the `connect` call (lines 361/372/378) -/
  | connectCall
  /-- the `timer_delete` call issued right after connect (line 389) -/
  | timerDelete
  /-- `send(fd, buf, 4096, 0)` of a buffer of `len` bytes each equal to
  `byte` (lines 422-423) -/
  | sendCall (byte : Nat) (len : Nat)
  /-- `close(fd)` on the connect-failure path (line 408) or after send
  (lines 424/428) -/
  | closeFd
  deriving Repr, DecidableEq

/-- What `epoll_client` left behind when it returned. -/
structure ClientResult where
  /-- the C return value: `-1` or `EXIT_SUCCESS` -/
  rc : Int
  /-- final value of `*counter` -/
  counter : Nat
  /-- final value of `connect_timeouts` -/
  connect_timeouts : Nat
  /-- whether `unlink(addr.sun_path)` was executed (lines 436-438) -/
  unlinked : Bool
  /-- emitted `ClientEvent`s in order -/
  trace : List ClientEvent
  deriving Repr, DecidableEq

/-- The `do { } while` loop of `epoll_client` (lines 310-433), entered at
the `retry:` label.  State: `pc` = `port_counter`, `c` = `*counter`,
`t` = `connect_timeouts`, `k` = `retries`, `tr` = events so far.  The
`isUnix` flag selects the `opt_epoll_domain == AF_UNIX` unlink on the
normal exit path; the fatal `return -1` paths skip it.  `none` means the
environment list ran out while the loop was still running. -/
def epoll_client_go (maxServers maxOps : Nat) (isUnix : Bool)
    (pc c t k : Nat) (tr : List ClientEvent) :
    List AttemptEnv → Option ClientResult
  | [] => none
  | env :: rest =>
      if env.do_run = false then
        -- line 320: break; then lines 435-444: unlink if unix, EXIT_SUCCESS
        some ⟨EXIT_SUCCESS, c, t, isUnix, tr⟩
      else if env.socket_ok = false then
        -- lines 323-326: return -1 (no unlink)
        some ⟨-1, c, t, false, tr⟩
      else if env.timer_create_ok = false then
        -- lines 331-335: close(fd); return -1 (no unlink)
        some ⟨-1, c, t, false, tr⟩
      else if env.timer_settime_ok = false then
        -- lines 347-351: close(fd); return -1 (timer created, never armed)
        some ⟨-1, c, t, false, tr ++ [ClientEvent.timerCreate]⟩
      else
        -- timer armed, connect issued, timer_delete called right after
        let tr2 := tr ++ [ClientEvent.timerCreate, ClientEvent.timerArm,
                          ClientEvent.connectCall, ClientEvent.timerDelete]
        if env.timer_delete_ok = false then
          -- lines 389-393: close(fd); return -1 (no unlink)
          some ⟨-1, c, t, false, tr2⟩
        else
          match env.connect_errno with
          | some e =>
              -- lines 395-417: classify errno, close, usleep, retry
              let t2 := if e = EINTR then t + 1 else t
              let tr3 := tr2 ++ [ClientEvent.closeFd]
              if k + 1 > 100 then
                -- lines 412-416: give up, return -1 (no unlink)
                some ⟨-1, c, t2, false, tr3⟩
              else
                epoll_client_go maxServers maxOps isUnix pc c t2 (k + 1) tr3 rest
          | none =>
              -- lines 420-432: retries = 0; fill and send buf; close;
              -- sched_yield; (*counter)++
              let tr3 := tr2 ++ [ClientEvent.sendCall (65 + c % 26) 4096]
              if env.send_ok = false then
                -- lines 423-427: close(fd); break out of the loop
                some ⟨EXIT_SUCCESS, c, t, isUnix, tr3 ++ [ClientEvent.closeFd]⟩
              else
                let tr4 := tr3 ++ [ClientEvent.closeFd]
                if maxOps = 0 ∨ c + 1 < maxOps then
                  epoll_client_go maxServers maxOps isUnix
                    ((pc + 1) % maxServers) (c + 1) t 0 tr4 rest
                else
                  some ⟨EXIT_SUCCESS, c + 1, t, isUnix, tr4⟩

/-- `epoll_client` (lines 281-445): the initial `sigaction` install
(lines 302-308) may fail, returning -1 before the loop; otherwise the
loop starts with `port_counter = 0`, `connect_timeouts = 0`,
`retries = 0` and the caller-supplied initial counter value. -/
def epoll_client (sigaction_ok : Bool) (maxServers maxOps c0 : Nat)
    (isUnix : Bool) (envs : List AttemptEnv) : Option ClientResult :=
  if sigaction_ok = false then some ⟨-1, c0, 0, false, []⟩
  else epoll_client_go maxServers maxOps isUnix 0 c0 0 0 [] envs

/-- An attempt whose connect fails with errno `e` and every other call
succeeds. -/
def failEnv (e : Nat) : AttemptEnv := ⟨true, true, true, true, some e, true, true⟩

/-- A fully successful attempt: connect and send both succeed. -/
def goodEnv : AttemptEnv := ⟨true, true, true, true, none, true, true⟩

/-- An attempt where connect succeeds but the send fails. -/
def sendFailEnv : AttemptEnv := ⟨true, true, true, true, none, true, false⟩

/-- An attempt where `socket()` itself fails. -/
def socketFailEnv : AttemptEnv := ⟨true, false, true, true, none, true, true⟩

/-- Events of one failed connect attempt. -/
def failBlock : List ClientEvent :=
  [ClientEvent.timerCreate, ClientEvent.timerArm, ClientEvent.connectCall,
   ClientEvent.timerDelete, ClientEvent.closeFd]

/-- Events of `n` consecutive failed connect attempts. -/
def failTrace : Nat → List ClientEvent
  | 0 => []
  | n + 1 => failBlock ++ failTrace n

/-- Events of one successful connect-send-close cycle at counter value
`c`: the 4096-byte buffer is memset to `'A' + (c % 26)` = `65 + c % 26`
(line 422). -/
def successBlock (c : Nat) : List ClientEvent :=
  [ClientEvent.timerCreate, ClientEvent.timerArm, ClientEvent.connectCall,
   ClientEvent.timerDelete, ClientEvent.sendCall (65 + c % 26) 4096,
   ClientEvent.closeFd]

/-- Events of `n` consecutive successful cycles starting at counter `c`. -/
def sendBlocks : Nat → Nat → List ClientEvent
  | _, 0 => []
  | c, n + 1 => successBlock c ++ sendBlocks (c + 1) n

/-!  ## Top-level stressor entry (`stress_epoll`, lines 623-680) -/

/-- `stress_epoll` (lines 623-680): `rc` is initialised to `EXIT_SUCCESS`
(line 630), the return value of `epoll_client` is discarded (line 666),
and no statement on any path (fork failure included) assigns `rc`, so the
function returns `EXIT_SUCCESS` whatever the client run produced. -/
def stress_epoll_rc (clientRc : Int) : Int :=
  let _ := clientRc
  EXIT_SUCCESS

/-!  ## Helper lemmas about runs of failing connect attempts -/

/-- While `retries` stays at or below 100, a run of failing connect
attempts keeps the client in its retry loop: the environment list is
consumed without returning. -/
theorem go_fail_pending (ms mo : Nat) (u : Bool) (e : Nat) :
    ∀ n pc c t k tr, k + n ≤ 100 →
      epoll_client_go ms mo u pc c t k tr (List.replicate n (failEnv e)) = none := by
  intro n
  induction n with
  | zero =>
      intro pc c t k tr _
      simp [epoll_client_go]
  | succ m ih =>
      intro pc c t k tr h
      rw [List.replicate_succ]
      simp [epoll_client_go, failEnv]
      rw [if_neg (by omega)]
      exact ih pc c _ (k + 1) _ (by omega)

/-- A run of failing connect attempts that pushes `retries` past 100 makes
the client give up: it returns -1 without unlinking, having closed the
descriptor of every attempt, and counted one connect timeout per attempt
exactly when the errno was EINTR. -/
theorem go_fail_gives_up (ms mo : Nat) (u : Bool) (e : Nat) :
    ∀ n pc c t k tr, k + n = 101 → k ≤ 100 →
      epoll_client_go ms mo u pc c t k tr (List.replicate n (failEnv e)) =
        some ⟨-1, c, t + (if e = EINTR then n else 0), false, tr ++ failTrace n⟩ := by
  intro n
  induction n with
  | zero =>
      intro pc c t k tr h hk
      omega
  | succ m ih =>
      intro pc c t k tr h hk
      rw [List.replicate_succ]
      simp [epoll_client_go, failEnv]
      rcases Nat.eq_zero_or_pos m with hm | hm
      · subst hm
        rw [if_pos (by omega)]
        by_cases he : e = EINTR <;>
          simp [he, failTrace, failBlock, List.append_assoc]
      · rw [if_neg (by omega)]
        refine Eq.trans (ih pc c (if e = EINTR then t + 1 else t) (k + 1)
          (tr ++ failBlock) (by omega) (by omega)) ?_
        by_cases he : e = EINTR <;>
          simp [he, failTrace, failBlock, List.append_assoc, Nat.add_assoc,
            Nat.add_comm 1 m]

/-- A run of `n` fully successful attempts starting at counter `c` with
`c + n = maxOps` completes exactly those `n` connect-send-close cycles and
exits the loop with the counter at `maxOps`, having unlinked the unix
path. -/
theorem go_success_run (ms : Nat) (u : Bool) (mo : Nat) :
    ∀ n pc c t k tr, 0 < n → c + n = mo →
      epoll_client_go ms mo u pc c t k tr (List.replicate n goodEnv) =
        some ⟨EXIT_SUCCESS, mo, t, u, tr ++ sendBlocks c n⟩ := by
  intro n
  induction n with
  | zero =>
      intro pc c t k tr h _
      omega
  | succ m ih =>
      intro pc c t k tr _ hcm
      rw [List.replicate_succ]
      simp [epoll_client_go, goodEnv]
      rcases Nat.eq_zero_or_pos m with hm | hm
      · subst hm
        rw [if_neg (by omega)]
        simp [sendBlocks, successBlock, List.append_assoc]
        omega
      · rw [if_pos (by omega)]
        refine Eq.trans (ih ((pc + 1) % ms) (c + 1) t 0
          (tr ++ successBlock c) (by omega) (by omega)) ?_
        simp [sendBlocks, successBlock, List.append_assoc]

/-- Checks the client's connect-deadline protocol along an event trace:
`timerCreate`, `timerArm`, `connectCall`, `timerDelete` may occur only as
one contiguous block in that order, except that a lone trailing
`timerCreate` may end the trace (the `timer_settime`-failure path, where
a timer was created but never armed and the client returns at once).  A
trace passing this check arms a deadline only immediately before a
connect, disarms it by the very next event after the connect, has at most
one armed deadline at any point and none outstanding at the end. -/
def timerDiscipline : List ClientEvent → Bool
  | [] => true
  | ClientEvent.timerCreate :: ClientEvent.timerArm :: ClientEvent.connectCall ::
      ClientEvent.timerDelete :: rest => timerDiscipline rest
  | [ClientEvent.timerCreate] => true
  | ClientEvent.timerCreate :: _ => false
  | ClientEvent.timerArm :: _ => false
  | ClientEvent.connectCall :: _ => false
  | ClientEvent.timerDelete :: _ => false
  | _ :: rest => timerDiscipline rest

/-- Master invariant of the client loop: whenever it returns, (a) its
event trace satisfies the timer discipline, and (b) it returned
EXIT_SUCCESS having run the unix unlink, or -1 having skipped it.  The
hypothesis says the accumulated trace is a prefix the discipline checker
consumes cleanly; the initial accumulator `[]` satisfies it. -/
theorem go_result_inv (ms mo : Nat) (u : Bool) :
    ∀ envs pc c t k tr r,
      (∀ s, timerDiscipline (tr ++ s) = timerDiscipline s) →
      epoll_client_go ms mo u pc c t k tr envs = some r →
      timerDiscipline r.trace = true ∧
        ((r.rc = EXIT_SUCCESS ∧ r.unlinked = u) ∨ (r.rc = -1 ∧ r.unlinked = false)) := by
  intro envs
  induction envs with
  | nil =>
      intro pc c t k tr r _ h
      simp [epoll_client_go] at h
  | cons env rest ih =>
      intro pc c t k tr r hinv h
      obtain ⟨dr, sok, tck, tsk, ce, tdk, sdk⟩ := env
      cases dr with
      | false =>
          simp [epoll_client_go] at h
          subst h
          exact ⟨by simpa using hinv [], Or.inl ⟨rfl, rfl⟩⟩
      | true =>
        cases sok with
        | false =>
            simp [epoll_client_go] at h
            subst h
            exact ⟨by simpa using hinv [], Or.inr ⟨rfl, rfl⟩⟩
        | true =>
          cases tck with
          | false =>
              simp [epoll_client_go] at h
              subst h
              exact ⟨by simpa using hinv [], Or.inr ⟨rfl, rfl⟩⟩
          | true =>
            cases tsk with
            | false =>
                simp [epoll_client_go] at h
                subst h
                refine ⟨?_, Or.inr ⟨rfl, rfl⟩⟩
                rw [show (ClientResult.mk (-1) c t false
                  (tr ++ [ClientEvent.timerCreate])).trace =
                    tr ++ [ClientEvent.timerCreate] from rfl, hinv]
                decide
            | true =>
              cases tdk with
              | false =>
                  simp [epoll_client_go] at h
                  subst h
                  refine ⟨?_, Or.inr ⟨rfl, rfl⟩⟩
                  simpa [List.append_assoc] using
                    (by rw [hinv]; decide :
                      timerDiscipline (tr ++ [ClientEvent.timerCreate,
                        ClientEvent.timerArm, ClientEvent.connectCall,
                        ClientEvent.timerDelete]) = true)
              | true =>
                cases ce with
                | some e =>
                    by_cases hk100 : 100 < k + 1
                    · simp [epoll_client_go, hk100] at h
                      subst h
                      refine ⟨?_, Or.inr ⟨rfl, rfl⟩⟩
                      simpa [List.append_assoc] using
                        (by rw [hinv]; decide :
                          timerDiscipline (tr ++ failBlock) = true)
                    · simp [epoll_client_go, hk100] at h
                      refine ih pc c _ (k + 1) _ r (fun s => ?_) h
                      rw [List.append_assoc, hinv]
                      simp [timerDiscipline]
                | none =>
                    cases sdk with
                    | false =>
                        simp [epoll_client_go] at h
                        subst h
                        refine ⟨?_, Or.inl ⟨rfl, rfl⟩⟩
                        simpa [List.append_assoc] using
                          (by rw [hinv]; simp [timerDiscipline, successBlock] :
                            timerDiscipline (tr ++ successBlock c) = true)
                    | true =>
                        by_cases hcont : mo = 0 ∨ c + 1 < mo
                        · simp [epoll_client_go, hcont] at h
                          refine ih ((pc + 1) % ms) (c + 1) t 0 _ r (fun s => ?_) h
                          rw [List.append_assoc, hinv]
                          simp [timerDiscipline]
                        · simp [epoll_client_go, hcont] at h
                          subst h
                          refine ⟨?_, Or.inl ⟨rfl, rfl⟩⟩
                          simpa [List.append_assoc] using
                            (by rw [hinv]; simp [timerDiscipline, successBlock] :
                              timerDiscipline (tr ++ successBlock c) = true)

/-!  ## Claims -/

/-- C1: the client (line 315) and server (line 461) compute the endpoint
port by the same formula `base + worker + max_workers * instance` (the
client's round-robin counter playing the worker-index role); with
max_workers = 4 and instance 2 the worker ports are exactly
{P+8, P+9, P+10, P+11}; and distinct (instance, worker) pairs with the
worker index below max_workers always get distinct ports. -/
theorem c1_port_allocation (P m i1 w1 i2 w2 : Nat)
    (h1 : w1 < m) (h2 : w2 < m) :
    (∀ inst w, clientPort P m inst w = serverPort P m inst w) ∧
    (List.range 4).map (serverPort P 4 2) = [P + 8, P + 9, P + 10, P + 11] ∧
    (serverPort P m i1 w1 = serverPort P m i2 w2 → i1 = i2 ∧ w1 = w2) := by
  refine ⟨fun inst w => rfl, ?_, ?_⟩
  · rw [show List.range 4 = [0, 1, 2, 3] by rfl]
    simp [serverPort, List.cons.injEq]
  · intro hp
    unfold serverPort at hp
    have hm : 0 < m := Nat.lt_of_le_of_lt (Nat.zero_le _) h1
    have hw : w1 + m * i1 = w2 + m * i2 := by omega
    have e1 : (w1 + m * i1) % m = w1 := by
      rw [Nat.add_mul_mod_self_left, Nat.mod_eq_of_lt h1]
    have e2 : (w2 + m * i2) % m = w2 := by
      rw [Nat.add_mul_mod_self_left, Nat.mod_eq_of_lt h2]
    have hww : w1 = w2 := by rw [← e1, ← e2, hw]
    have hmm : m * i1 = m * i2 := by omega
    exact ⟨Nat.eq_of_mul_eq_mul_left hm hmm, hww⟩

/-- C1 witness: at P = 100, max_workers = 4, both pairs (1,2). -/
theorem c1_port_allocation_witness :
    2 < 4 ∧ (serverPort 100 4 1 2 = serverPort 100 4 1 2 → 1 = 1 ∧ 2 = 2) :=
  ⟨by decide, (c1_port_allocation 100 4 1 2 1 2 (by decide) (by decide)).2.2⟩

/-- C2: `stress_epoll` discards `epoll_client`'s status (line 666) and
returns the `rc` initialised to EXIT_SUCCESS (line 630) on every path.
A client run whose 101 consecutive connects are all refused returns -1
from `epoll_client`, yet `stress_epoll` still reports EXIT_SUCCESS: the
client failure never propagates to the caller. -/
theorem c2_client_failure_discarded :
    epoll_client true 1 0 0 false (List.replicate 101 (failEnv ECONNREFUSED)) =
      some ⟨-1, 0, 0, false, failTrace 101⟩ ∧
    stress_epoll_rc (-1) = EXIT_SUCCESS ∧
    (-1 : Int) ≠ EXIT_SUCCESS := by
  refine ⟨?_, rfl, by decide⟩
  have h := go_fail_gives_up 1 0 false ECONNREFUSED 101 0 0 0 0 []
    (by omega) (by omega)
  simpa [epoll_client, ECONNREFUSED, EINTR] using h

/-- C3 counterexample: with the keep-running flag still true and a further
wait outcome pending, a wait failure with EINTR ends the server loop at
once with EXIT_SUCCESS; had the iteration behaved as "zero events
reported, re-check and continue waiting", the run would have reached the
next wait failure and returned EXIT_FAILURE. -/
theorem c3_eintr_counterexample :
    epoll_server_loop true 0 0 [WaitResult.err EINTR, WaitResult.err 5] =
      some EXIT_SUCCESS ∧
    epoll_server_loop true 0 0 [WaitResult.err 5] = some EXIT_FAILURE := by
  decide

/-- C3 (amended): a wait failure with EINTR terminates the server's event
loop immediately with a success status (the `break` on line 575 is reached
with rc still EXIT_SUCCESS), regardless of the keep-running flag, the
operation bound or any remaining events; a wait failure with any other
errno terminates the worker with EXIT_FAILURE. -/
theorem c3_wait_error_handling (d : Bool) (mo c e : Nat)
    (rest : List WaitResult) :
    epoll_server_loop d mo c (WaitResult.err e :: rest) =
      some (if e = EINTR then EXIT_SUCCESS else EXIT_FAILURE) := rfl

/-- C4: with every connect attempt failing transiently (EINTR timeout,
ECONNREFUSED, or ENOENT), each failed attempt closes its descriptor
(`closeFd` per `failBlock`) and retries; starting from `retries = k ≤
100`, the run returns -1 exactly on the (101-k)-th consecutive failure —
with the count at or below 100 it is still retrying — and a successful
connect re-enters the loop with the retry counter reset to 0. -/
theorem c4_retry_bound (ms mo pc c t k e : Nat) (u : Bool)
    (_htrans : e = EINTR ∨ e = ECONNREFUSED ∨ e = ENOENT) (hk : k ≤ 100) :
    (epoll_client_go ms mo u pc c t k [] (List.replicate (101 - k) (failEnv e)) =
      some ⟨-1, c, t + (if e = EINTR then 101 - k else 0), false,
        failTrace (101 - k)⟩) ∧
    (∀ n, k + n ≤ 100 →
      epoll_client_go ms mo u pc c t k [] (List.replicate n (failEnv e)) = none) ∧
    (∀ rest, mo = 0 ∨ c + 1 < mo →
      epoll_client_go ms mo u pc c t k [] (goodEnv :: rest) =
        epoll_client_go ms mo u ((pc + 1) % ms) (c + 1) t 0 (successBlock c) rest) := by
  refine ⟨?_, ?_, ?_⟩
  · have h := go_fail_gives_up ms mo u e (101 - k) pc c t k [] (by omega) hk
    simpa using h
  · intro n hn
    exact go_fail_pending ms mo u e n pc c t k [] hn
  · intro rest hcond
    simp [epoll_client_go, goodEnv, successBlock, hcond]

/-- C4 witness: ECONNREFUSED is transient, retries start at 0 ≤ 100, and
101 consecutive refusals make the client return -1. -/
theorem c4_retry_bound_witness :
    (ECONNREFUSED = EINTR ∨ ECONNREFUSED = ECONNREFUSED ∨ ECONNREFUSED = ENOENT) ∧
    (0 : Nat) ≤ 100 ∧
    epoll_client_go 1 0 false 0 0 0 0 []
        (List.replicate (101 - 0) (failEnv ECONNREFUSED)) =
      some ⟨-1, 0, 0 + (if ECONNREFUSED = EINTR then 101 - 0 else 0), false,
        failTrace (101 - 0)⟩ :=
  ⟨by decide, by decide,
   (c4_retry_bound 1 0 0 0 0 0 ECONNREFUSED false (by decide) (by decide)).1⟩

/-- C5 counterexample: in the unix domain, a client run whose very first
socket() call fails returns -1 with `unlinked = false` — a fatal-error
exit that never unlinks the socket path, refuting "unlinks on every
exit path, including every fatal-error path". -/
theorem c5_fatal_path_counterexample :
    epoll_client true 1 0 0 true [socketFailEnv] =
      some ⟨-1, 0, 0, false, []⟩ := by decide

/-- C5 (amended): in the unix domain the client unlinks the socket path
exactly on its EXIT_SUCCESS exits (keep-running flag cleared, operation
limit reached, or send failure); every fatal-error path — sigaction,
socket, timer_create, timer_settime or timer_delete failure, and
exhaustion of the 100-retry bound — returns -1 without unlinking. -/
theorem c5_unlink_on_normal_exit (sigok : Bool) (ms mo c0 : Nat)
    (envs : List AttemptEnv) (r : ClientResult)
    (h : epoll_client sigok ms mo c0 true envs = some r) :
    (r.unlinked = true ↔ r.rc = EXIT_SUCCESS) ∧
    (r.rc = EXIT_SUCCESS ∨ r.rc = -1) := by
  cases sigok with
  | false =>
      simp [epoll_client] at h
      subst h
      simp [EXIT_SUCCESS]
  | true =>
      have h2 := go_result_inv ms mo true envs 0 c0 0 0 [] r (fun s => rfl)
        (by simpa [epoll_client] using h)
      rcases h2.2 with ⟨hrc, hu⟩ | ⟨hrc, hu⟩ <;> simp [hrc, hu, EXIT_SUCCESS]

/-- C5 witness: the socket-failure run from the counterexample satisfies
the amended characterisation. -/
theorem c5_unlink_witness :
    ((ClientResult.mk (-1) 0 0 false []).unlinked = true ↔
      (ClientResult.mk (-1) 0 0 false []).rc = EXIT_SUCCESS) ∧
    ((ClientResult.mk (-1) 0 0 false []).rc = EXIT_SUCCESS ∨
      (ClientResult.mk (-1) 0 0 false []).rc = -1) :=
  c5_unlink_on_normal_exit true 1 0 0 [socketFailEnv]
    (ClientResult.mk (-1) 0 0 false []) (by decide)

/-- C6: on each successful connect the client fills the 4096-byte buffer
with the single byte 'A' + (counter % 26) = 65 + counter % 26, sends it,
closes the descriptor, and only then increments the counter by exactly
one; with max_ops > 0 and every attempt succeeding, a run from counter 0
performs exactly max_ops connect-send-close cycles — trace
`sendBlocks 0 max_ops` — and stops with the counter at max_ops. -/
theorem c6_payload_cycles (ms mo : Nat) (u : Bool) (hmo : 0 < mo) :
    (epoll_client true ms mo 0 u (List.replicate mo goodEnv) =
      some ⟨EXIT_SUCCESS, mo, 0, u, sendBlocks 0 mo⟩) ∧
    (∀ pc c t k rest, mo = 0 ∨ c + 1 < mo →
      epoll_client_go ms mo u pc c t k [] (goodEnv :: rest) =
        epoll_client_go ms mo u ((pc + 1) % ms) (c + 1) t 0
          (successBlock c) rest) := by
  constructor
  · have h := go_success_run ms u mo mo 0 0 0 0 [] hmo (by omega)
    simpa [epoll_client] using h
  · intro pc c t k rest hcond
    simp [epoll_client_go, goodEnv, successBlock, hcond]

/-- C6 witness: three successful cycles under max_ops = 3. -/
theorem c6_payload_cycles_witness :
    0 < 3 ∧
    epoll_client true 1 3 0 true (List.replicate 3 goodEnv) =
      some ⟨EXIT_SUCCESS, 3, 0, true, sendBlocks 0 3⟩ :=
  ⟨by decide, (c6_payload_cycles 1 3 true (by decide)).1⟩

/-- C7: every client run obeys the connect-deadline discipline: the timer
is created and armed immediately before each connect call, the delete
call is the very next timer action once connect returns (success or
failure alike), at most one deadline is armed at any point, and none is
left armed when the next iteration begins or when the client returns —
every returned trace passes `timerDiscipline`. -/
theorem c7_timer_discipline (sigok : Bool) (ms mo c0 : Nat) (u : Bool)
    (envs : List AttemptEnv) (r : ClientResult)
    (h : epoll_client sigok ms mo c0 u envs = some r) :
    timerDiscipline r.trace = true := by
  cases sigok with
  | false =>
      simp [epoll_client] at h
      subst h
      rfl
  | true =>
      exact (go_result_inv ms mo u envs 0 c0 0 0 [] r (fun s => rfl)
        (by simpa [epoll_client] using h)).1

/-- C7 witness: the one-cycle run at max_ops = 1. -/
theorem c7_timer_discipline_witness :
    timerDiscipline (ClientResult.mk EXIT_SUCCESS 1 0 true
      (sendBlocks 0 1)).trace = true :=
  c7_timer_discipline true 1 1 0 true [goodEnv]
    (ClientResult.mk EXIT_SUCCESS 1 0 true (sendBlocks 0 1)) (by decide)

/-- C8 counterexample: an accept failure with EMFILE ends the accept pass
with a success result but emits no log message (the branch at lines
252-255 holds only a comment), refuting the claim's "is logged". -/
theorem c8_emfile_counterexample :
    epoll_notification [⟨some EMFILE, true, true⟩] = some (0, []) := by decide

/-- C8 (amended): in the accept-drain loop, an accept failure with EAGAIN
or EWOULDBLOCK ends the pass with a success result; one with EMFILE or
ENFILE ends the pass early with a success result and is not fatal for
the worker, but emits no log message; any other accept failure is
reported ("accept") and returns -1, ending the event-handling pass. -/
theorem c8_accept_error_classes (e : Nat) (nb ca : Bool)
    (rest : List NotifStep) :
    epoll_notification (⟨some e, nb, ca⟩ :: rest) =
      some (if e = EAGAIN ∨ e = EWOULDBLOCK then ((0 : Int), ([] : List String))
            else if e = EMFILE ∨ e = ENFILE then (0, [])
            else (-1, ["accept"])) := by
  simp only [epoll_notification]
  split_ifs <;> rfl

/-- C9 counterexample: the registry's local-domain selector is "unix"
(line 83), not "local": setting domain "local" fails with -1 and leaves
the configuration unchanged, refuting the claim that every selector in
{ipv4, ipv6, local} resolves successfully. -/
theorem c9_local_counterexample :
    stress_set_epoll_domain "local" ⟨AF_UNIX, 1⟩ = (-1, ⟨AF_UNIX, 1⟩) := by
  decide

/-- C9 (amended): the domain-setting operation resolves the selectors
"ipv4" (AF_INET, 4 workers), "ipv6" (AF_INET6, 4 workers) and "unix"
(AF_UNIX, 1 worker) with success; any name outside the registry yields
-1 — after printing the valid names — and leaves the configured domain
and worker count unchanged. -/
theorem c9_domain_registry (cfg : EpollConfig) :
    stress_set_epoll_domain "ipv4" cfg = (0, ⟨AF_INET, 4⟩) ∧
    stress_set_epoll_domain "ipv6" cfg = (0, ⟨AF_INET6, 4⟩) ∧
    stress_set_epoll_domain "unix" cfg = (0, ⟨AF_UNIX, 1⟩) ∧
    (∀ nm, nm ≠ "ipv4" → nm ≠ "ipv6" → nm ≠ "unix" →
      stress_set_epoll_domain nm cfg = (-1, cfg)) := by
  refine ⟨by simp [stress_set_epoll_domain, setDomainScan, domains],
    by simp [stress_set_epoll_domain, setDomainScan, domains],
    by simp [stress_set_epoll_domain, setDomainScan, domains], ?_⟩
  intro nm h4 h6 hu
  simp [stress_set_epoll_domain, setDomainScan, domains, h4, h6, hu]

/-- C9 witness: "ipv4" resolves, and the unknown name "local" is rejected
without touching the configuration. -/
theorem c9_domain_registry_witness :
    stress_set_epoll_domain "ipv4" ⟨AF_UNIX, 1⟩ = (0, ⟨AF_INET, 4⟩) ∧
    stress_set_epoll_domain "nosuch" ⟨AF_UNIX, 1⟩ = (-1, ⟨AF_UNIX, 1⟩) :=
  ⟨(c9_domain_registry ⟨AF_UNIX, 1⟩).1,
   (c9_domain_registry ⟨AF_UNIX, 1⟩).2.2.2 "nosuch"
     (by decide) (by decide) (by decide)⟩

/-- C10: when connect succeeded but the send fails, the client closes the
descriptor, leaves its loop without incrementing the counter and without
consuming further attempts, and still returns EXIT_SUCCESS — the send
failure is logged via pr_failed_dbg (lines 423-427) but never reported to
the caller — unlinking the unix path on the way out. -/
theorem c10_send_failure_success (ms mo pc c t k : Nat) (u : Bool)
    (rest : List AttemptEnv) :
    epoll_client_go ms mo u pc c t k [] (sendFailEnv :: rest) =
      some ⟨EXIT_SUCCESS, c, t, u,
        [ClientEvent.timerCreate, ClientEvent.timerArm, ClientEvent.connectCall,
         ClientEvent.timerDelete, ClientEvent.sendCall (65 + c % 26) 4096,
         ClientEvent.closeFd]⟩ := by
  simp [epoll_client_go, sendFailEnv]

end StressEpoll
